import Mathlib

/-!
Shallow embedding of the RetroFarm_Wallets balance-checking core
(`multicall3-service.ts`, `rpc-manager.ts`, `balance-checker.ts`,
`token-list-manager.ts`) and proofs about it.

Modelling conventions:
* JS `bigint` balances are modelled as `Nat` (on-chain balances are
  unsigned, and `bigint` division/modulo on non-negative operands agree
  with `Nat` division/modulo).
* Remote I/O (JSON-RPC requests, the token-catalog HTTP fetch, the native
  balance call) is modelled by oracle parameters: a call either yields a
  value or fails, mirroring a resolved or rejected promise.
* JS `Map` caches are modelled as functions into `Option`.
* Timestamps (`Date.now()`) are `Nat` milliseconds passed explicitly.
-/

/-- The character for one decimal digit: code point 48 (`'0'`) plus the
digit value, as JavaScript's number-to-string conversion produces it. -/
def digitToChar (d : Nat) : Char := Char.ofNat (48 + d)

/-- Decimal digit characters of `n`, most significant first, computed with
explicit fuel so that the definition is structural (the fuel `n + 1` always
suffices because each step divides by 10).  This models the decimal
rendering performed by JavaScript's `BigInt.prototype.toString`. -/
def toDecimalAux : Nat → Nat → List Char
  | 0, _ => []
  | fuel + 1, n =>
    if n < 10 then [digitToChar n]
    else toDecimalAux fuel (n / 10) ++ [digitToChar (n % 10)]

/-- Decimal string of a natural number (model of `toString()` on a
non-negative JS `bigint` / integral `number`). -/
def natToString (n : Nat) : String :=
  ⟨toDecimalAux (n + 1) n⟩

/-- Model of JavaScript `String.prototype.padStart(len, c)`. -/
def padStart (s : String) (len : Nat) (c : Char) : String :=
  ⟨List.replicate (len - s.length) c ++ s.data⟩

/-- Model of `s.replace(/0+$/, '')`: drop all trailing `'0'` characters. -/
def dropTrailingZeros (s : String) : String :=
  ⟨(s.data.reverse.dropWhile (· = '0')).reverse⟩

/-- Token metadata as delivered by the Li.quest catalog
(`TokenInfo` in `token-list-manager.ts`).  `priceUSD` is kept as the raw
catalog string; `priceParsed` carries its numeric reading used by
`calculateUSDValue` (`none` models a `parseFloat` result of `NaN`;
exact rationals stand in for JS floating point, which no claim under
verification depends on). -/
structure TokenInfo where
  address : String
  symbol : String
  name : String
  decimals : Nat
  priceUSD : String
  priceParsed : Option ℚ
  deriving Repr, DecidableEq

/-- One entry of the `aggregate3` response (`MulticallResult` in
`multicall3-service.ts`).  `returnData` is modelled by its decoding:
`some b` when `decodeFunctionResult` yields the balance `b`, `none` when
the payload is empty or malformed and decoding throws. -/
structure MulticallResult where
  success : Bool
  returnData : Option Nat
  deriving Repr, DecidableEq

/-- `BalanceResult` in `multicall3-service.ts`. -/
structure BalanceResult where
  address : String
  symbol : String
  name : String
  balance : Nat
  balanceFormatted : String
  decimals : Nat
  usdValue : ℚ
  priceUSD : String
  deriving Repr, DecidableEq

/-- `Multicall3Service.formatTokenBalance`: integer part, a dot, and the
fractional digits with trailing zeros trimmed; no dot when the fractional
part vanishes.  (`10 ** decimals` is exact in JS for every realistic token
precision, so `10 ^ decimals` over `Nat` is faithful.) -/
def formatTokenBalance (balance : Nat) (decimals : Nat) : String :=
  let divisor := 10 ^ decimals
  let wholePart := balance / divisor
  let fractionalPart := balance % divisor
  if fractionalPart = 0 then
    natToString wholePart
  else
    let fractionalStr := padStart (natToString fractionalPart) decimals '0'
    let trimmedFractional := dropTrailingZeros fractionalStr
    if trimmedFractional = "" then
      natToString wholePart
    else
      natToString wholePart ++ "." ++ trimmedFractional

/-- `Multicall3Service.calculateUSDValue`: a missing (`NaN`) or
non-positive price yields 0, otherwise formatted balance times price.
The JS code multiplies `parseFloat(formatTokenBalance …)` by the price;
we use the exact rational value `balance / 10 ^ decimals` of that
formatted string. -/
def calculateUSDValue (balance : Nat) (decimals : Nat) (priceParsed : Option ℚ) : ℚ :=
  match priceParsed with
  | none => 0
  | some price => if price ≤ 0 then 0 else (balance : ℚ) / (10 ^ decimals : ℚ) * price

/-- The `BalanceResult` record pushed by
`Multicall3Service.executeMulticallWithRPC` for one decoded token balance. -/
def mkBalanceResult (token : TokenInfo) (balance : Nat) : BalanceResult :=
  { address := token.address
    symbol := token.symbol
    name := token.name
    balance := balance
    balanceFormatted := formatTokenBalance balance token.decimals
    decimals := token.decimals
    usdValue := calculateUSDValue balance token.decimals token.priceParsed
    priceUSD := token.priceUSD }

/-- The result-processing loop of `executeMulticallWithRPC`: walk the
tokens with their positional results, keep only entries whose call
succeeded and whose return payload decodes.  (The source loop runs `i`
over `tokens.length` and skips indices where `results[i]` is undefined,
which is exactly the truncating `zip`.) -/
def processResults (tokens : List TokenInfo) (results : List MulticallResult) :
    List BalanceResult :=
  (tokens.zip results).filterMap fun tr =>
    if tr.2.success then
      match tr.2.returnData with
      | some balance => some (mkBalanceResult tr.1 balance)
      | none => none
    else none

/-- `Multicall3Service.executeMulticallWithRPC`, given the decoded
aggregate response: process per-call results, then drop zero balances. -/
def executeMulticallWithRPC (tokens : List TokenInfo) (results : List MulticallResult) :
    List BalanceResult :=
  (processResults tokens results).filter fun result => 0 < result.balance

/-- The adaptive batch size chosen by
`Multicall3Service.checkTokenBalancesBatched` from the token count. -/
def chooseBatchSize (tokenCount : Nat) : Nat :=
  if tokenCount > 1000 then 200
  else if tokenCount < 300 then 100
  else 150

/-- Fuel-driven core of `createBatches`; the fuel bounds the number of
slices (the token count always suffices for a positive batch size). -/
def createBatchesAux (batchSize : Nat) : Nat → List α → List (List α)
  | 0, _ => []
  | _, [] => []
  | fuel + 1, tokens =>
    tokens.take batchSize :: createBatchesAux batchSize fuel (tokens.drop batchSize)

/-- `Multicall3Service.createBatches`: consecutive slices of
`batchSize` tokens. -/
def createBatches (tokens : List α) (batchSize : Nat) : List (List α) :=
  createBatchesAux batchSize tokens.length tokens

/-- Observable events of `checkSingleBatchWithRPCRotation`: an aggregate
call executed on attempt `k` against endpoint `rpc`, or a sleep of `ms`
milliseconds. -/
inductive RotEvent where
  | attemptEv (k : Nat) (rpc : String)
  | delayEv (ms : Nat)
  deriving Repr, DecidableEq

/-- The retry loop of `Multicall3Service.checkSingleBatchWithRPCRotation`.
`netResp k` is the aggregate response obtained on attempt `k` (`none`
models a thrown transport error or timeout).  Recursion is on the number
of remaining loop iterations.  `rpcUrls[(attempt-1) % rpcUrls.length]` is
`undefined` in JS when the list is empty (index `NaN`); the Lean indexing
`l[(attempt-1) % l.length]?` is likewise `none` exactly when `l = []`.
The `if (!currentRpc) continue` guard also skips an empty-string URL. -/
def rotationLoop (tokens : List TokenInfo) (rpcUrls : List String)
    (netResp : Nat → Option (List MulticallResult)) (maxAttempts : Nat) :
    Nat → Nat → Option (List BalanceResult) × List RotEvent
  | _, 0 => (none, [])
  | attempt, remaining + 1 =>
    match rpcUrls[(attempt - 1) % rpcUrls.length]? with
    | none => rotationLoop tokens rpcUrls netResp maxAttempts (attempt + 1) remaining
    | some currentRpc =>
      if currentRpc = "" then
        rotationLoop tokens rpcUrls netResp maxAttempts (attempt + 1) remaining
      else
        match netResp attempt with
        | some results =>
          (some (executeMulticallWithRPC tokens results), [.attemptEv attempt currentRpc])
        | none =>
          let rest := rotationLoop tokens rpcUrls netResp maxAttempts (attempt + 1) remaining
          (rest.1,
            .attemptEv attempt currentRpc ::
              (if attempt < maxAttempts then .delayEv 500 :: rest.2 else rest.2))

/-- `Multicall3Service.checkSingleBatchWithRPCRotation` with its default
`maxAttempts = 3`.  A `none` result models the final throw after all
attempts failed; the event list is the trace of aggregate executions and
inter-attempt delays. -/
def checkSingleBatchWithRPCRotation (tokens : List TokenInfo) (rpcUrls : List String)
    (netResp : Nat → Option (List MulticallResult)) :
    Option (List BalanceResult) × List RotEvent :=
  rotationLoop tokens rpcUrls netResp 3 1 3

/-- `NetworkConfig` from `rpc-manager.ts`.  The viem `chain` object is an
external-library value carrying no data the core consults beyond what is
duplicated in these fields, so it is not modelled. -/
structure NetworkConfigNativeCurrency where
  name : String
  symbol : String
  decimals : Nat
  deriving Repr, DecidableEq

structure NetworkConfig where
  chainId : Nat
  name : String
  rpcUrls : List String
  multicallAddress : String
  nativeCurrency : NetworkConfigNativeCurrency
  deriving Repr, DecidableEq

instance : Inhabited NetworkConfig :=
  ⟨{ chainId := 0, name := "", rpcUrls := [], multicallAddress := "",
     nativeCurrency := { name := "", symbol := "", decimals := 0 } }⟩

/-- The static registry table `RPCManager.networkConfigs`, transcribed
entry for entry (including the two distinct entries sharing chain id 999). -/
def networkConfigs : List NetworkConfig := [
  { chainId := 1, name := "Ethereum",
    rpcUrls := ["https://ethereum-rpc.publicnode.com", "https://eth.drpc.org", "https://rpc.ankr.com/eth", "https://eth.llamarpc.com", "https://rpc.flashbots.net", "https://eth.blockscout.com", "https://ethereum.publicnode.com", "https://eth-mainnet.g.alchemy.com/v2/demo"],
    multicallAddress := "0xcA11bde05977b3631167028862bE2a173976CA11",
    nativeCurrency := { name := "ETH", symbol := "ETH", decimals := 18 } },
  { chainId := 10, name := "Optimism",
    rpcUrls := ["https://optimism-rpc.publicnode.com", "https://optimism.drpc.org"],
    multicallAddress := "0xcA11bde05977b3631167028862bE2a173976CA11",
    nativeCurrency := { name := "ETH", symbol := "ETH", decimals := 18 } },
  { chainId := 14, name := "Flare",
    rpcUrls := ["https://flare-api.flare.network/ext/C/rpc", "https://rpc.ankr.com/flare", "https://flare.rpc.thirdweb.com"],
    multicallAddress := "0xcA11bde05977b3631167028862bE2a173976CA11",
    nativeCurrency := { name := "Flare", symbol := "FLR", decimals := 18 } },
  { chainId := 25, name := "Cronos",
    rpcUrls := ["https://evm.cronos.org", "https://cronos.drpc.org", "https://endpoints.omniatech.io/v1/cronos/mainnet/public"],
    multicallAddress := "0xcA11bde05977b3631167028862bE2a173976CA11",
    nativeCurrency := { name := "CRO", symbol := "CRO", decimals := 18 } },
  { chainId := 30, name := "Rootstock",
    rpcUrls := ["https://public-node.rsk.co", "https://mycrypto.rsk.co", "https://rootstock.drpc.org"],
    multicallAddress := "0xcA11bde05977b3631167028862bE2a173976CA11",
    nativeCurrency := { name := "Rootstock Smart Bitcoin", symbol := "RBTC", decimals := 18 } },
  { chainId := 50, name := "XDC",
    rpcUrls := ["https://rpc.xdcrpc.com", "https://erpc.xdcrpc.com", "https://rpc1.xinfin.network"],
    multicallAddress := "0x0b1795cca8e4ec4df02346a082df54d437f8d9af",
    nativeCurrency := { name := "XDC", symbol := "XDC", decimals := 18 } },
  { chainId := 56, name := "BSC",
    rpcUrls := ["https://bsc-dataseed.binance.org", "https://bsc-dataseed.bnbchain.org", "https://bsc-rpc.publicnode.com", "https://bsc-dataseed1.defibit.io", "https://bsc-dataseed1.ninicoin.io", "https://bsc.drpc.org", "https://rpc.ankr.com/bsc", "https://bsc.llamarpc.com"],
    multicallAddress := "0xcA11bde05977b3631167028862bE2a173976CA11",
    nativeCurrency := { name := "BNB", symbol := "BNB", decimals := 18 } },
  { chainId := 100, name := "Gnosis",
    rpcUrls := ["https://rpc.gnosischain.com", "https://gnosis-rpc.publicnode.com", "https://gnosis.drpc.org"],
    multicallAddress := "0xcA11bde05977b3631167028862bE2a173976CA11",
    nativeCurrency := { name := "xDAI Native Token", symbol := "xDAI", decimals := 18 } },
  { chainId := 122, name := "FUSE",
    rpcUrls := ["https://rpc.fuse.io", "https://fuse.drpc.org", "https://fuse-public.nodies.app"],
    multicallAddress := "0xcA11bde05977b3631167028862bE2a173976CA11",
    nativeCurrency := { name := "FUSE", symbol := "FUSE", decimals := 18 } },
  { chainId := 130, name := "Unichain",
    rpcUrls := ["https://mainnet.unichain.org", "https://unichain.drpc.org", "https://unichain-rpc.publicnode.com"],
    multicallAddress := "0xcA11bde05977b3631167028862bE2a173976CA11",
    nativeCurrency := { name := "ETH", symbol := "ETH", decimals := 18 } },
  { chainId := 137, name := "Polygon",
    rpcUrls := ["https://polygon-bor-rpc.publicnode.com", "https://polygon.drpc.org", "https://polygon-rpc.com", "https://rpc-mainnet.maticvigil.com", "https://rpc.ankr.com/polygon", "https://polygon.llamarpc.com", "https://polygon-rpc.com", "https://matic-mainnet.chainstacklabs.com"],
    multicallAddress := "0xcA11bde05977b3631167028862bE2a173976CA11",
    nativeCurrency := { name := "Polygon Ecosystem Token", symbol := "POL", decimals := 18 } },
  { chainId := 146, name := "Sonic",
    rpcUrls := ["https://rpc.soniclabs.com", "https://sonic.drpc.org"],
    multicallAddress := "0xcA11bde05977b3631167028862bE2a173976CA11",
    nativeCurrency := { name := "S", symbol := "S", decimals := 18 } },
  { chainId := 204, name := "opBNB",
    rpcUrls := ["https://opbnb-mainnet-rpc.bnbchain.org", "https://1rpc.io/opbnb"],
    multicallAddress := "0xcA11bde05977b3631167028862bE2a173976CA11",
    nativeCurrency := { name := "BNB", symbol := "BNB", decimals := 18 } },
  { chainId := 232, name := "Lens",
    rpcUrls := ["https://api.lens.matterhosted.dev"],
    multicallAddress := "0xeee5a340Cdc9c179Db25dea45AcfD5FE8d4d3eB8",
    nativeCurrency := { name := "GHO", symbol := "GHO", decimals := 18 } },
  { chainId := 250, name := "Fantom",
    rpcUrls := ["https://rpcapi.fantom.network", "https://rpc.fantom.network", "https://fantom-rpc.publicnode.com", "https://fantom.drpc.org"],
    multicallAddress := "0xcA11bde05977b3631167028862bE2a173976CA11",
    nativeCurrency := { name := "FTM", symbol := "FTM", decimals := 18 } },
  { chainId := 252, name := "Fraxtal",
    rpcUrls := ["https://rpc.frax.com"],
    multicallAddress := "0xcA11bde05977b3631167028862bE2a173976CA11",
    nativeCurrency := { name := "FRAX", symbol := "FRAX", decimals := 18 } },
  { chainId := 288, name := "Boba",
    rpcUrls := ["https://mainnet.boba.network", "https://replica.boba.network"],
    multicallAddress := "0xcA11bde05977b3631167028862bE2a173976CA11",
    nativeCurrency := { name := "ETH", symbol := "ETH", decimals := 18 } },
  { chainId := 324, name := "zkSync",
    rpcUrls := ["https://mainnet.era.zksync.io"],
    multicallAddress := "0xF9cda624FBC7e059355ce98a31693d299FACd963",
    nativeCurrency := { name := "ETH", symbol := "ETH", decimals := 18 } },
  { chainId := 480, name := "World Chain",
    rpcUrls := ["https://worldchain-mainnet.g.alchemy.com/public", "https://worldchain-mainnet.gateway.tenderly.co"],
    multicallAddress := "0xcA11bde05977b3631167028862bE2a173976CA11",
    nativeCurrency := { name := "ETH", symbol := "ETH", decimals := 18 } },
  { chainId := 999, name := "HyperEVM",
    rpcUrls := ["https://rpc.hyperliquid.xyz/evm", "https://rpc.hyperlend.finance", "https://hyperliquid-json-rpc.stakely.io", "https://hyperliquid.drpc.org"],
    multicallAddress := "0xcA11bde05977b3631167028862bE2a173976CA11",
    nativeCurrency := { name := "HYPE", symbol := "HYPE", decimals := 18 } },
  { chainId := 1088, name := "Metis",
    rpcUrls := ["https://andromeda.metis.io", "https://metis.drpc.org"],
    multicallAddress := "0xcA11bde05977b3631167028862bE2a173976CA11",
    nativeCurrency := { name := "METIS", symbol := "METIS", decimals := 18 } },
  { chainId := 1101, name := "Polygon zkEVM",
    rpcUrls := ["https://zkevm-rpc.com", "https://polygon-zkevm.drpc.org"],
    multicallAddress := "0xcA11bde05977b3631167028862bE2a173976CA11",
    nativeCurrency := { name := "ETH", symbol := "ETH", decimals := 18 } },
  { chainId := 1135, name := "Lisk",
    rpcUrls := ["https://rpc.api.lisk.com", "https://lisk.drpc.org"],
    multicallAddress := "0xcA11bde05977b3631167028862bE2a173976CA11",
    nativeCurrency := { name := "ETH", symbol := "ETH", decimals := 18 } },
  { chainId := 1284, name := "Moonbeam",
    rpcUrls := ["https://rpc.api.moonbeam.network", "https://moonbeam-rpc.publicnode.com", "https://moonbeam.drpc.org"],
    multicallAddress := "0xcA11bde05977b3631167028862bE2a173976CA11",
    nativeCurrency := { name := "GLMR", symbol := "GLMR", decimals := 18 } },
  { chainId := 1285, name := "Moonriver",
    rpcUrls := ["https://rpc.api.moonriver.moonbeam.network", "https://moonriver-rpc.publicnode.com", "https://moonriver.drpc.org"],
    multicallAddress := "0xcA11bde05977b3631167028862bE2a173976CA11",
    nativeCurrency := { name := "MOVR", symbol := "MOVR", decimals := 18 } },
  { chainId := 1329, name := "Sei",
    rpcUrls := ["https://evm-rpc.sei-apis.com"],
    multicallAddress := "0xcA11bde05977b3631167028862bE2a173976CA11",
    nativeCurrency := { name := "SEI", symbol := "SEI", decimals := 18 } },
  { chainId := 999, name := "Hyperliquid",
    rpcUrls := ["https://hyperliquid.drpc.org", "https://rpc.hyperliquid.xyz/evm", "https://hyperliquid-json-rpc.stakely.io"],
    multicallAddress := "",
    nativeCurrency := { name := "USD Coin (Perps)", symbol := "USDC", decimals := 6 } },
  { chainId := 1480, name := "Vana",
    rpcUrls := ["https://rpc.vana.org"],
    multicallAddress := "0xD8d2dFca27E8797fd779F8547166A2d3B29d360E",
    nativeCurrency := { name := "Vana", symbol := "VAN", decimals := 18 } },
  { chainId := 1625, name := "Gravity",
    rpcUrls := ["https://rpc.ankr.com/gravity"],
    multicallAddress := "0xcA11bde05977b3631167028862bE2a173976CA11",
    nativeCurrency := { name := "G", symbol := "G", decimals := 18 } },
  { chainId := 1868, name := "Soneium",
    rpcUrls := ["https://soneium-mainnet.blastapi.io/0e189c72-1523-48e1-8727-7dd520f19c1f"],
    multicallAddress := "0xcA11bde05977b3631167028862bE2a173976CA11",
    nativeCurrency := { name := "ETH", symbol := "ETH", decimals := 18 } },
  { chainId := 1923, name := "Swellchain",
    rpcUrls := ["https://swell-mainnet.alt.technology"],
    multicallAddress := "0xcA11bde05977b3631167028862bE2a173976CA11",
    nativeCurrency := { name := "ETH", symbol := "ETH", decimals := 18 } },
  { chainId := 2741, name := "Abstract",
    rpcUrls := ["https://api.mainnet.abs.xyz"],
    multicallAddress := "0xAa4De41dba0Ca5dCBb288b7cC6b708F3aaC759E7",
    nativeCurrency := { name := "ETH", symbol := "ETH", decimals := 18 } },
  { chainId := 5000, name := "Mantle",
    rpcUrls := ["https://rpc.mantle.xyz", "https://mantle-rpc.publicnode.com", "https://mantle.drpc.org", "https://mantle.public-rpc.com"],
    multicallAddress := "0xcA11bde05977b3631167028862bE2a173976CA11",
    nativeCurrency := { name := "MNT", symbol := "MNT", decimals := 18 } },
  { chainId := 8217, name := "Kaia",
    rpcUrls := ["https://public-en.node.kaia.io", "https://klaytn.drpc.org"],
    multicallAddress := "0xcA11bde05977b3631167028862bE2a173976CA11",
    nativeCurrency := { name := "KAIA", symbol := "KAIA", decimals := 18 } },
  { chainId := 8453, name := "Base",
    rpcUrls := ["https://mainnet.base.org", "https://base-rpc.publicnode.com", "https://base.drpc.org"],
    multicallAddress := "0xcA11bde05977b3631167028862bE2a173976CA11",
    nativeCurrency := { name := "ETH", symbol := "ETH", decimals := 18 } },
  { chainId := 13371, name := "Immutable zkEVM",
    rpcUrls := ["https://rpc.immutable.com/", "https://immutable-zkevm.drpc.org"],
    multicallAddress := "0xcA11bde05977b3631167028862bE2a173976CA11",
    nativeCurrency := { name := "IMX", symbol := "IMX", decimals := 18 } },
  { chainId := 33139, name := "Apechain",
    rpcUrls := ["https://rpc.apechain.com"],
    multicallAddress := "0xcA11bde05977b3631167028862bE2a173976CA11",
    nativeCurrency := { name := "APE", symbol := "APE", decimals := 18 } },
  { chainId := 34443, name := "Mode",
    rpcUrls := ["https://mode.drpc.org"],
    multicallAddress := "0xcA11bde05977b3631167028862bE2a173976CA11",
    nativeCurrency := { name := "ETH", symbol := "ETH", decimals := 18 } },
  { chainId := 42161, name := "Arbitrum",
    rpcUrls := ["https://arb1.arbitrum.io/rpc", "https://arbitrum-one-rpc.publicnode.com", "https://arbitrum.drpc.org", "https://rpc.ankr.com/arbitrum", "https://arbitrum.llamarpc.com", "https://arbitrum-one.publicnode.com", "https://arbitrum-mainnet.infura.io/v3/9aa3d95b3bc440fa88ea12eaa4456161"],
    multicallAddress := "0xcA11bde05977b3631167028862bE2a173976CA11",
    nativeCurrency := { name := "ETH", symbol := "ETH", decimals := 18 } },
  { chainId := 42220, name := "Celo",
    rpcUrls := ["https://celo.drpc.org"],
    multicallAddress := "0xcA11bde05977b3631167028862bE2a173976CA11",
    nativeCurrency := { name := "Celo native asset", symbol := "CELO", decimals := 18 } },
  { chainId := 42793, name := "Etherlink",
    rpcUrls := ["https://node.mainnet.etherlink.com"],
    multicallAddress := "0xcA11bde05977b3631167028862bE2a173976CA11",
    nativeCurrency := { name := "Tezos", symbol := "XTZ", decimals := 18 } },
  { chainId := 43114, name := "Avalanche",
    rpcUrls := ["https://api.avax.network/ext/bc/C/rpc", "https://avalanche-c-chain-rpc.publicnode.com", "https://avalanche.drpc.org"],
    multicallAddress := "0xcA11bde05977b3631167028862bE2a173976CA11",
    nativeCurrency := { name := "AVAX", symbol := "AVAX", decimals := 18 } },
  { chainId := 57073, name := "Ink",
    rpcUrls := ["https://rpc-gel.inkonchain.com"],
    multicallAddress := "0xcA11bde05977b3631167028862bE2a173976CA11",
    nativeCurrency := { name := "ETH", symbol := "ETH", decimals := 18 } },
  { chainId := 59144, name := "Linea",
    rpcUrls := ["https://rpc.linea.build"],
    multicallAddress := "0xcA11bde05977b3631167028862bE2a173976CA11",
    nativeCurrency := { name := "ETH", symbol := "ETH", decimals := 18 } },
  { chainId := 80094, name := "Berachain",
    rpcUrls := ["https://rpc.berachain.com"],
    multicallAddress := "0xcA11bde05977b3631167028862bE2a173976CA11",
    nativeCurrency := { name := "BERA", symbol := "BERA", decimals := 18 } },
  { chainId := 81457, name := "Blast",
    rpcUrls := ["https://rpc.blast.io", "https://blast-rpc.publicnode.com", "https://blast.drpc.org"],
    multicallAddress := "0xcA11bde05977b3631167028862bE2a173976CA11",
    nativeCurrency := { name := "ETH", symbol := "ETH", decimals := 18 } },
  { chainId := 167000, name := "Taiko",
    rpcUrls := ["https://rpc.mainnet.taiko.xyz", "https://rpc.taiko.xyz"],
    multicallAddress := "0xcA11bde05977b3631167028862bE2a173976CA11",
    nativeCurrency := { name := "ETH", symbol := "ETH", decimals := 18 } },
  { chainId := 534352, name := "Scroll",
    rpcUrls := ["https://rpc.scroll.io", "https://scroll.drpc.org", "https://scroll-mainnet.public.blastapi.io", "https://1rpc.io/scroll"],
    multicallAddress := "0xcA11bde05977b3631167028862bE2a173976CA11",
    nativeCurrency := { name := "ETH", symbol := "ETH", decimals := 18 } },
  { chainId := 747474, name := "Katana",
    rpcUrls := ["https://rpc.katana.network"],
    multicallAddress := "0xcA11bde05977b3631167028862bE2a173976CA11",
    nativeCurrency := { name := "ETH", symbol := "ETH", decimals := 18 } },
  { chainId := 21000000, name := "Corn",
    rpcUrls := ["https://mainnet.corn-rpc.com"],
    multicallAddress := "0xcA11bde05977b3631167028862bE2a173976CA11",
    nativeCurrency := { name := "Bitcorn", symbol := "BTCN", decimals := 18 } },
  { chainId := 1313161554, name := "Aurora",
    rpcUrls := ["https://mainnet.aurora.dev"],
    multicallAddress := "0xcA11bde05977b3631167028862bE2a173976CA11",
    nativeCurrency := { name := "AETH", symbol := "AETH", decimals := 18 } }
]

/-- `RPCManager.getNetworkConfig`: first entry of the table with the
requested chain id (`Array.prototype.find`), `null` when absent. -/
def getNetworkConfig (chainId : Nat) : Option NetworkConfig :=
  networkConfigs.find? fun config => config.chainId == chainId

/-- `RPCManager.getSupportedChainIds`. -/
def getSupportedChainIds : List Nat :=
  networkConfigs.map fun config => config.chainId

/-- Cached health verdict (`HealthCheckResult` in `rpc-manager.ts`). -/
structure HealthCheckResult where
  isHealthy : Bool
  lastCheck : Nat
  deriving Repr, DecidableEq

/-- The `healthCache : Map<string, HealthCheckResult>` of `RPCManager`,
modelled as a function on keys. -/
def HealthCache : Type := String → Option HealthCheckResult

/-- The `clientCache : Map<number, PublicClient>` of `RPCManager`.  A viem
`PublicClient` is represented by the RPC URL its transport is bound to. -/
structure RPCClient where
  rpcUrl : String
  deriving Repr, DecidableEq

def ClientCache : Type := Nat → Option RPCClient

/-- `Map.prototype.set`: point update of a function-backed cache. -/
def mapSet [DecidableEq κ] (m : κ → Option β) (k : κ) (v : β) : κ → Option β :=
  fun k' => if k' = k then some v else m k'

/-- `RPCManager.HEALTH_CHECK_TTL` (5 minutes in milliseconds). -/
def HEALTH_CHECK_TTL : Nat := 5 * 60 * 1000

/-- `RPCManager.checkRPCHealth`.  `probe` is the outcome the
`getBlockNumber` smoke test would have (true = reachable); `now` is
`Date.now()`.  Returns the verdict, the updated cache, and whether a
network check was actually issued. -/
def checkRPCHealth (healthCache : HealthCache) (rpcUrl : String) (now : Nat)
    (probe : Bool) : Bool × HealthCache × Bool :=
  let cacheKey := "health_" ++ rpcUrl
  match healthCache cacheKey with
  | some cached =>
    if now - cached.lastCheck < HEALTH_CHECK_TTL then
      (cached.isHealthy, healthCache, false)
    else
      (probe, mapSet healthCache cacheKey ⟨probe, now⟩, true)
  | none =>
    (probe, mapSet healthCache cacheKey ⟨probe, now⟩, true)

/-- `RPCManager.findWorkingRPC` on a registered network's URL list: scan
in configured priority order, returning the first endpoint whose
cached-or-fresh health verdict is positive, threading the health cache. -/
def findWorkingRPC (rpcUrls : List String) (healthCache : HealthCache)
    (probe : String → Bool) (now : Nat) : Option String × HealthCache :=
  match rpcUrls with
  | [] => (none, healthCache)
  | rpcUrl :: rest =>
    let checked := checkRPCHealth healthCache rpcUrl now (probe rpcUrl)
    if checked.1 then (some rpcUrl, checked.2.1)
    else findWorkingRPC rest checked.2.1 probe now

/-- Error taxonomy of `RPCManager.createClient` (the three `throw new
Error(…)` sites). -/
inductive RPCError where
  | unsupportedNetwork
  | noHealthyEndpoint
  | clientCreationFailed
  deriving Repr, DecidableEq

/-- `RPCManager.createClient`: serve from the client cache; otherwise look
the network up (failing with `unsupportedNetwork` when absent), find a
healthy endpoint (failing with `noHealthyEndpoint` when none), construct a
client bound to it, smoke-test it (`smokeOk`), and cache it on success. -/
def createClient (chainId : Nat) (clientCache : ClientCache)
    (healthCache : HealthCache) (probe : String → Bool)
    (smokeOk : String → Bool) (now : Nat) :
    Except RPCError RPCClient × ClientCache × HealthCache :=
  match clientCache chainId with
  | some client => (.ok client, clientCache, healthCache)
  | none =>
    match getNetworkConfig chainId with
    | none => (.error .unsupportedNetwork, clientCache, healthCache)
    | some config =>
      let found := findWorkingRPC config.rpcUrls healthCache probe now
      match found.1 with
      | none => (.error .noHealthyEndpoint, clientCache, found.2)
      | some workingRPC =>
        if smokeOk workingRPC then
          (.ok ⟨workingRPC⟩, mapSet clientCache chainId ⟨workingRPC⟩, found.2)
        else
          (.error .clientCreationFailed, clientCache, found.2)

/-- `RPCManager.getClient` simply delegates to `createClient`. -/
def getClient (chainId : Nat) (clientCache : ClientCache)
    (healthCache : HealthCache) (probe : String → Bool)
    (smokeOk : String → Bool) (now : Nat) :
    Except RPCError RPCClient × ClientCache × HealthCache :=
  createClient chainId clientCache healthCache probe smokeOk now

/-- `Multicall3Service.checkTokenBalancesBatched`.  `netResp i k` is the
aggregate response for batch `i` on rotation attempt `k`.  The
`MAX_CONCURRENT_BATCHES = 6` grouping only bounds in-flight requests;
group results are collected with `Promise.all` and concatenated in batch
order, so the sequential collation below is the collation the source
produces.  A batch whose rotation throws is caught and contributes `[]`.
Returns the combined records and the concatenated per-batch event traces. -/
def checkTokenBalancesBatched (chainId : Nat) (tokens : List TokenInfo)
    (netResp : Nat → Nat → Option (List MulticallResult)) :
    List BalanceResult × List RotEvent :=
  if tokens = [] then ([], [])
  else
    let batchSize := chooseBatchSize tokens.length
    let batches := createBatches tokens batchSize
    let rpcUrls := ((getNetworkConfig chainId).map fun config => config.rpcUrls).getD []
    let runs := batches.enum.map fun ib =>
      checkSingleBatchWithRPCRotation ib.2 rpcUrls (netResp ib.1)
    ((runs.map fun run => run.1.getD []).flatten, (runs.map fun run => run.2).flatten)

/-- `Multicall3Service.checkTokenBalances`: empty token list short-circuits
to `[]`; otherwise batching is used for all networks. -/
def checkTokenBalances (chainId : Nat) (tokens : List TokenInfo)
    (netResp : Nat → Nat → Option (List MulticallResult)) :
    List BalanceResult × List RotEvent :=
  if tokens = [] then ([], [])
  else checkTokenBalancesBatched chainId tokens netResp

/-- `NativeBalanceResult` from `multicall3-service.ts`. -/
structure NativeBalanceResult where
  balance : Nat
  balanceFormatted : String
  symbol : String
  usdValue : ℚ
  deriving Repr, DecidableEq

/-- `NetworkBalanceResult` from `balance-checker.ts`. -/
structure NetworkBalanceResult where
  chainId : Nat
  networkName : String
  walletAddress : String
  nativeBalance : NativeBalanceResult
  tokenBalances : List BalanceResult
  totalUsdValue : ℚ
  timestamp : Nat
  deriving Repr, DecidableEq

/-- `AllNetworksBalanceResult` from `balance-checker.ts`. -/
structure AllNetworksBalanceResult where
  walletAddress : String
  networks : List NetworkBalanceResult
  totalUsdValue : ℚ
  timestamp : Nat
  deriving Repr, DecidableEq

/-- The errors `BalanceChecker.checkSingleNetwork` can propagate: its own
unsupported-network throw, a token-catalog fetch failure propagated out of
`TokenListManager.getTokensForChain` (which has no catch around
`fetchFromAPI`), or a native-balance failure out of `checkNativeBalance`. -/
inductive NetworkCheckError where
  | unsupportedNetwork
  | catalogUnavailable
  | nativeBalanceFailed
  deriving Repr, DecidableEq

/-- `BalanceChecker.checkSingleNetwork`.  `catalog` is the outcome of
`tokenListManager.getTokensForChain(chainId)` on a cache miss (`.error`
models the Li.quest fetch failing, which that method propagates);
`native` is the outcome of `checkNativeBalance`.  Note the token fetch
happens before the native-balance fetch, so a catalog failure aborts the
whole single-network query. -/
def checkSingleNetwork (walletAddress : String) (chainId : Nat)
    (catalog : Except Unit (List TokenInfo))
    (native : Except Unit NativeBalanceResult)
    (netResp : Nat → Nat → Option (List MulticallResult))
    (timestamp : Nat) : Except NetworkCheckError NetworkBalanceResult :=
  match getNetworkConfig chainId with
  | none => .error .unsupportedNetwork
  | some networkConfig =>
    match catalog with
    | .error _ => .error .catalogUnavailable
    | .ok tokens =>
      match native with
      | .error _ => .error .nativeBalanceFailed
      | .ok nativeBalance =>
        let tokenBalances := (checkTokenBalances chainId tokens netResp).1
        let finalTokenBalances := tokenBalances.filter fun token => 0 < token.balance
        let tokenUsdValue := (finalTokenBalances.map fun token => token.usdValue).sum
        .ok { chainId := chainId
              networkName := networkConfig.name
              walletAddress := walletAddress
              nativeBalance := nativeBalance
              tokenBalances := finalTokenBalances
              totalUsdValue := nativeBalance.usdValue + tokenUsdValue
              timestamp := timestamp }

/-- The zero-valued placeholder `checkAllNetworks` substitutes for a
network whose `checkSingleNetwork` threw (the `catch` branch).  The JS
`networkConfig?.name || `Chain ${chainId}`` and `… || 'ETH'` fallbacks
fire exactly when the registry lookup misses (no registered name or
symbol is the empty string). -/
def placeholderNetworkResult (walletAddress : String) (chainId : Nat)
    (timestamp : Nat) : NetworkBalanceResult :=
  let networkConfig := getNetworkConfig chainId
  { chainId := chainId
    networkName := (networkConfig.map fun config => config.name).getD
      ("Chain " ++ natToString chainId)
    walletAddress := walletAddress
    nativeBalance :=
      { balance := 0
        balanceFormatted := "0"
        symbol := (networkConfig.map fun config => config.nativeCurrency.symbol).getD "ETH"
        usdValue := 0 }
    tokenBalances := []
    totalUsdValue := 0
    timestamp := timestamp }

/-- `BalanceChecker.checkAllNetworks`: query every requested chain id,
converting each per-network failure into the zero placeholder, and sum
the per-network USD totals.  The function is total — the multi-network
query never throws. -/
def checkAllNetworks (walletAddress : String) (chainIds : List Nat)
    (catalog : Nat → Except Unit (List TokenInfo))
    (native : Nat → Except Unit NativeBalanceResult)
    (netResp : Nat → Nat → Nat → Option (List MulticallResult))
    (timestamp : Nat) : AllNetworksBalanceResult :=
  let networks := chainIds.map fun chainId =>
    match checkSingleNetwork walletAddress chainId (catalog chainId)
        (native chainId) (netResp chainId) timestamp with
    | .ok networkResult => networkResult
    | .error _ => placeholderNetworkResult walletAddress chainId timestamp
  { walletAddress := walletAddress
    networks := networks
    totalUsdValue := (networks.map fun network => network.totalUsdValue).sum
    timestamp := timestamp }

/-- A sample token used to instantiate universally quantified theorems on
concrete inputs. -/
def sampleToken : TokenInfo :=
  { address := "0x0000000000000000000000000000000000000001"
    symbol := "TKN"
    name := "Token"
    decimals := 6
    priceUSD := "1"
    priceParsed := some 1 }

/-- The empty client cache (a fresh `RPCManager`). -/
def emptyClientCache : ClientCache := fun _ => none

/-- The empty health cache (a fresh `RPCManager`). -/
def emptyHealthCache : HealthCache := fun _ => none

/-- A one-entry health cache holding a healthy verdict recorded at time 0
for the endpoint `https://e`. -/
def sampleHealthCache : HealthCache :=
  mapSet emptyHealthCache "health_https://e" ⟨true, 0⟩

/-! ### Helper lemmas -/

lemma createBatchesAux_flatten {α} (batchSize : Nat) (hbs : 1 ≤ batchSize) :
    ∀ (fuel : Nat) (l : List α), l.length ≤ fuel →
      (createBatchesAux batchSize fuel l).flatten = l := by
  intro fuel
  induction fuel with
  | zero =>
    intro l hl
    have : l = [] := List.length_eq_zero.mp (Nat.le_zero.mp hl)
    subst this
    rfl
  | succ fuel ih =>
    intro l hl
    cases l with
    | nil => rfl
    | cons a tl =>
      have hlen : (List.drop batchSize (a :: tl)).length ≤ fuel := by
        rw [List.length_drop]
        have : (a :: tl).length ≤ fuel + 1 := hl
        have hpos : 1 ≤ (a :: tl).length := by simp
        omega
      simp only [createBatchesAux, List.flatten_cons, ih _ hlen, List.take_append_drop]

lemma chooseBatchSize_pos (n : Nat) : 1 ≤ chooseBatchSize n := by
  unfold chooseBatchSize
  split <;> [omega; split <;> omega]

/-- Claim C1: for every token list of length `N`, the adaptive batch size is 200
when `N > 1000`, 100 when `N < 300`, and 150 otherwise, and
concatenating the consecutive batches produced by `createBatches` at that
size yields exactly the input token list. -/
theorem batching_covers_input (tokens : List TokenInfo) :
    (1000 < tokens.length → chooseBatchSize tokens.length = 200) ∧
    (tokens.length < 300 → chooseBatchSize tokens.length = 100) ∧
    (¬ 1000 < tokens.length → ¬ tokens.length < 300 →
      chooseBatchSize tokens.length = 150) ∧
    (createBatches tokens (chooseBatchSize tokens.length)).flatten = tokens := by
  refine ⟨?_, ?_, ?_, ?_⟩
  · intro h
    unfold chooseBatchSize
    simp [h]
  · intro h
    unfold chooseBatchSize
    have : ¬ 1000 < tokens.length := by omega
    simp [this, h]
  · intro h1 h2
    unfold chooseBatchSize
    simp [h1, h2]
  · exact createBatchesAux_flatten _ (chooseBatchSize_pos _) _ _ le_rfl

/-- Witness for `batching_covers_input` at a concrete 5-token list. -/
theorem batching_covers_input_witness :
    chooseBatchSize (List.replicate 5 sampleToken).length = 100 ∧
    (createBatches (List.replicate 5 sampleToken)
        (chooseBatchSize (List.replicate 5 sampleToken).length)).flatten =
      List.replicate 5 sampleToken := by
  refine ⟨(batching_covers_input (List.replicate 5 sampleToken)).2.1 (by simp),
    (batching_covers_input (List.replicate 5 sampleToken)).2.2.2⟩

lemma digitToChar_ne_dot (d : Nat) (hd : d < 10) : digitToChar d ≠ '.' := by
  interval_cases d <;> decide

lemma toDecimalAux_no_dot : ∀ (fuel n : Nat), '.' ∉ toDecimalAux fuel n := by
  intro fuel
  induction fuel with
  | zero => intro n h; simp [toDecimalAux] at h
  | succ fuel ih =>
    intro n h
    unfold toDecimalAux at h
    split at h
    case isTrue hlt =>
      simp at h
      exact digitToChar_ne_dot n hlt h.symm
    case isFalse hge =>
      rcases List.mem_append.mp h with h' | h'
      · exact ih _ h'
      · simp at h'
        exact digitToChar_ne_dot _ (Nat.mod_lt _ (by omega)) h'.symm

lemma natToString_no_dot (n : Nat) : '.' ∉ (natToString n).data :=
  toDecimalAux_no_dot _ _

/-- Claim C7: formatting the raw balance 1500000 with declared precision 6
yields `"1.5"`; with precision 0 every raw balance formats to its decimal
integer string unchanged; and whenever the fractional part is all zeros
(`balance % 10 ^ decimals = 0`) the formatted string contains no decimal
point. -/
theorem formatTokenBalance_spec :
    formatTokenBalance 1500000 6 = "1.5" ∧
    (∀ balance : Nat, formatTokenBalance balance 0 = natToString balance) ∧
    (∀ balance decimals : Nat, balance % 10 ^ decimals = 0 →
      '.' ∉ (formatTokenBalance balance decimals).data) := by
  refine ⟨by decide, ?_, ?_⟩
  · intro balance
    simp [formatTokenBalance, pow_zero, Nat.mod_one, Nat.div_one]
  · intro balance decimals h
    unfold formatTokenBalance
    simp only [h, if_pos rfl]
    exact natToString_no_dot _

/-- Witness for `formatTokenBalance_spec`: its universally quantified
parts at the concrete balances 42 (precision 0) and 3000000 (precision 6,
fractional part all zeros). -/
theorem formatTokenBalance_spec_witness :
    formatTokenBalance 42 0 = natToString 42 ∧
    '.' ∉ (formatTokenBalance 3000000 6).data :=
  ⟨formatTokenBalance_spec.2.1 42,
   formatTokenBalance_spec.2.2 3000000 6 (by decide)⟩

/-- Claim C10: for an empty token list, `checkTokenBalances` and
`checkTokenBalancesBatched` return an empty result list immediately; the
empty event trace shows that no endpoint is consulted and no aggregate
call is executed (and hence no batch is ever formed). -/
theorem empty_tokens_short_circuit :
    ∀ (chainId : Nat) (netResp : Nat → Nat → Option (List MulticallResult)),
      checkTokenBalances chainId [] netResp = ([], []) ∧
      checkTokenBalancesBatched chainId [] netResp = ([], []) := by
  intro chainId netResp
  exact ⟨rfl, rfl⟩

lemma find?_first {α} (p : α → Bool) :
    ∀ (l : List α) (x : α), l.find? p = some x →
      ∃ i : Nat, l[i]? = some x ∧ p x = true ∧
        ∀ j : Nat, j < i → ∀ y, l[j]? = some y → p y = false := by
  intro l
  induction l with
  | nil => intro x h; simp [List.find?] at h
  | cons a tl ih =>
    intro x h
    rw [List.find?] at h
    cases hpa : p a with
    | true =>
      rw [hpa] at h
      injection h with h
      subst h
      exact ⟨0, by simp, hpa, fun j hj => absurd hj (Nat.not_lt_zero j)⟩
    | false =>
      rw [hpa] at h
      obtain ⟨i, hget, hpx, hearlier⟩ := ih x h
      refine ⟨i + 1, by simpa using hget, hpx, ?_⟩
      intro j hj y hy
      cases j with
      | zero =>
        simp at hy
        subst hy
        exact hpa
      | succ j' =>
        exact hearlier j' (Nat.lt_of_succ_lt_succ hj) y (by simpa using hy)

/-- Claim C4: the registry holds two distinct entries with chain id 999
(`HyperEVM` first, `Hyperliquid` second, in registration order);
`getNetworkConfig` never deduplicates and deterministically returns the
first matching entry — in particular the lookup of 999 yields the
`HyperEVM` entry, and in general any returned entry has no earlier entry
with the same chain id. -/
theorem registry_first_match :
    ((networkConfigs.filter fun c => c.chainId == 999).map fun c => c.name) =
      ["HyperEVM", "Hyperliquid"] ∧
    (getNetworkConfig 999).map (fun c => c.name) = some "HyperEVM" ∧
    ∀ chainId config, getNetworkConfig chainId = some config →
      config.chainId = chainId ∧
      ∃ i : Nat, networkConfigs[i]? = some config ∧
        ∀ j : Nat, j < i → ∀ earlier, networkConfigs[j]? = some earlier →
          earlier.chainId ≠ chainId := by
  refine ⟨by rfl, by rfl, ?_⟩
  intro chainId config h
  obtain ⟨i, hget, hpx, hearlier⟩ := find?_first _ networkConfigs config h
  refine ⟨by simpa using hpx, i, hget, ?_⟩
  intro j hj earlier hy
  have := hearlier j hj earlier hy
  simpa using this

/-- Witness for `registry_first_match`: its first-match part applied to
the duplicated chain id 999. -/
theorem registry_first_match_witness :
    ∃ config, getNetworkConfig 999 = some config ∧ config.chainId = 999 ∧
      ∃ i : Nat, networkConfigs[i]? = some config ∧
        ∀ j : Nat, j < i → ∀ earlier, networkConfigs[j]? = some earlier →
          earlier.chainId ≠ 999 := by
  obtain ⟨config, hconfig⟩ : ∃ c, getNetworkConfig 999 = some c := ⟨_, rfl⟩
  obtain ⟨h1, h2⟩ := registry_first_match.2.2 999 config hconfig
  exact ⟨config, hconfig, h1, h2⟩

/-- Claim C5: a health verdict cached at time `t` is returned unchanged —
cache untouched, no network check issued — by any probe at `tNow` with
`tNow - t < TTL` (TTL = 5 minutes = 300000 ms), while a probe at
`tNow` with `tNow - t ≥ TTL` issues a fresh check and overwrites the
cached verdict with the new result and timestamp. -/
theorem health_cache_ttl (healthCache : HealthCache) (rpcUrl : String)
    (verdict : Bool) (t tNow : Nat) (probe : Bool)
    (hcached : healthCache ("health_" ++ rpcUrl) = some ⟨verdict, t⟩) :
    (tNow - t < HEALTH_CHECK_TTL →
      checkRPCHealth healthCache rpcUrl tNow probe = (verdict, healthCache, false)) ∧
    (HEALTH_CHECK_TTL ≤ tNow - t →
      checkRPCHealth healthCache rpcUrl tNow probe =
        (probe, mapSet healthCache ("health_" ++ rpcUrl) ⟨probe, tNow⟩, true)) := by
  constructor
  · intro hfresh
    simp [checkRPCHealth, hcached, hfresh]
  · intro hstale
    simp [checkRPCHealth, hcached, Nat.not_lt.mpr hstale]

/-- Witness for `health_cache_ttl`: a verdict recorded at time 0 for
endpoint `https://e` is reused at 299999 ms and re-probed (with the
opposite outcome) at 300000 ms. -/
theorem health_cache_ttl_witness :
    checkRPCHealth sampleHealthCache "https://e" 299999 false =
      (true, sampleHealthCache, false) ∧
    checkRPCHealth sampleHealthCache "https://e" 300000 false =
      (false, mapSet sampleHealthCache ("health_" ++ "https://e") ⟨false, 300000⟩, true) := by
  have hcached : sampleHealthCache ("health_" ++ "https://e") = some ⟨true, 0⟩ := by rfl
  exact ⟨(health_cache_ttl sampleHealthCache "https://e" true 0 299999 false hcached).1
      (by decide),
    (health_cache_ttl sampleHealthCache "https://e" true 0 300000 false hcached).2
      (by decide)⟩

/-- Claim C6: for a chain id absent from the registry (and therefore
never present in the client cache, which only caches successfully created
clients), `getClient` fails with the unsupported-network error and both
the client cache and the health cache are returned exactly unchanged. -/
theorem unsupported_network_no_cache (chainId : Nat) (clientCache : ClientCache)
    (healthCache : HealthCache) (probe smokeOk : String → Bool) (now : Nat)
    (hreg : getNetworkConfig chainId = none)
    (hcc : clientCache chainId = none) :
    getClient chainId clientCache healthCache probe smokeOk now =
      (.error .unsupportedNetwork, clientCache, healthCache) := by
  unfold getClient createClient
  rw [hcc, hreg]

/-- Witness for `unsupported_network_no_cache`: chain id 2 is not in the
registry; `getClient` on fresh caches fails and leaves them empty. -/
theorem unsupported_network_no_cache_witness :
    getClient 2 emptyClientCache emptyHealthCache (fun _ => true) (fun _ => true) 0 =
      (.error .unsupportedNetwork, emptyClientCache, emptyHealthCache) :=
  unsupported_network_no_cache 2 emptyClientCache emptyHealthCache
    (fun _ => true) (fun _ => true) 0 (by rfl) (by rfl)

lemma processResults_length_le :
    ∀ (tokens : List TokenInfo) (results : List MulticallResult),
      (processResults tokens results).length ≤
        (results.filter fun r => r.success).length := by
  intro tokens
  induction tokens with
  | nil => intro results; simp [processResults]
  | cons t ts ih =>
    intro results
    cases results with
    | nil => simp [processResults]
    | cons r rs =>
      have hrec := ih rs
      unfold processResults at hrec ⊢
      rw [List.zip_cons_cons, List.filterMap_cons, List.filter_cons]
      cases hs : r.success with
      | true =>
        cases hrd : r.returnData with
        | some balance => simp [hs, hrd]; omega
        | none => simp [hs, hrd]; omega
      | false => simpa [hs] using hrec

lemma executeMulticallWithRPC_pos (tokens : List TokenInfo)
    (results : List MulticallResult) :
    ∀ record ∈ executeMulticallWithRPC tokens results, 0 < record.balance := by
  intro record hmem
  have := List.mem_filter.mp hmem
  simpa using this.2

/-- Claim C3: from a batch of tokens and an aggregate response in which
`K` per-call results report success, `executeMulticallWithRPC` produces at
most `K` balance records; every record it returns has a strictly positive
raw balance, and every record in the token list of a successful
`checkSingleNetwork` result (the orchestrator level, which filters again)
also has a strictly positive raw balance. -/
theorem batch_records_bounded_and_nonzero :
    (∀ (tokens : List TokenInfo) (results : List MulticallResult),
      (executeMulticallWithRPC tokens results).length ≤
        (results.filter fun r => r.success).length) ∧
    (∀ (tokens : List TokenInfo) (results : List MulticallResult),
      ∀ record ∈ executeMulticallWithRPC tokens results, 0 < record.balance) ∧
    (∀ (walletAddress : String) (chainId : Nat)
        (catalog : Except Unit (List TokenInfo))
        (native : Except Unit NativeBalanceResult)
        (netResp : Nat → Nat → Option (List MulticallResult))
        (timestamp : Nat) (networkResult : NetworkBalanceResult),
      checkSingleNetwork walletAddress chainId catalog native netResp timestamp =
        .ok networkResult →
      ∀ record ∈ networkResult.tokenBalances, 0 < record.balance) := by
  refine ⟨?_, executeMulticallWithRPC_pos, ?_⟩
  · intro tokens results
    calc (executeMulticallWithRPC tokens results).length
        ≤ (processResults tokens results).length := List.length_filter_le _ _
      _ ≤ (results.filter fun r => r.success).length := processResults_length_le _ _
  · intro walletAddress chainId catalog native netResp timestamp networkResult h
    unfold checkSingleNetwork at h
    split at h
    · exact absurd h (by simp)
    · split at h
      · exact absurd h (by simp)
      · split at h
        · exact absurd h (by simp)
        · injection h with h
          subst h
          intro record hmem
          have := List.mem_filter.mp hmem
          simpa using this.2

/-- Witness for `batch_records_bounded_and_nonzero`: a single-token batch
whose one call succeeds and decodes to balance 5. -/
theorem batch_records_bounded_and_nonzero_witness :
    (executeMulticallWithRPC [sampleToken] [⟨true, some 5⟩]).length ≤
      (([⟨true, some 5⟩] : List MulticallResult).filter fun r => r.success).length ∧
    0 < (mkBalanceResult sampleToken 5).balance := by
  refine ⟨batch_records_bounded_and_nonzero.1 [sampleToken] [⟨true, some 5⟩], ?_⟩
  refine batch_records_bounded_and_nonzero.2.1 [sampleToken] [⟨true, some 5⟩]
    (mkBalanceResult sampleToken 5) ?_
  have : executeMulticallWithRPC [sampleToken] [⟨true, some 5⟩] =
      [mkBalanceResult sampleToken 5] := by rfl
  rw [this]
  exact List.mem_singleton.mpr rfl

lemma rotationLoop_step (tokens : List TokenInfo) (rpcUrls : List String)
    (netResp : Nat → Option (List MulticallResult)) (maxAttempts attempt remaining : Nat)
    (u : String) (hu : rpcUrls[(attempt - 1) % rpcUrls.length]? = some u) (hne : u ≠ "") :
    rotationLoop tokens rpcUrls netResp maxAttempts attempt (remaining + 1) =
      match netResp attempt with
      | some results =>
        (some (executeMulticallWithRPC tokens results), [.attemptEv attempt u])
      | none =>
        ((rotationLoop tokens rpcUrls netResp maxAttempts (attempt + 1) remaining).1,
          .attemptEv attempt u ::
            (if attempt < maxAttempts then
              .delayEv 500 ::
                (rotationLoop tokens rpcUrls netResp maxAttempts (attempt + 1) remaining).2
            else (rotationLoop tokens rpcUrls netResp maxAttempts (attempt + 1) remaining).2)) := by
  rw [rotationLoop, hu]
  simp [hne]

/-- Claim C2: for any batch and any non-empty endpoint list (no registry
entry configures an empty URL), the rotation makes at most 3 attempts;
attempt `k` executes against the endpoint at position `(k-1) mod
endpointCount`; a fixed 500 ms delay separates consecutive attempts (the
full trace is one of three shapes, each interleaving exactly one
`delayEv 500` between successive attempts); and at most 3 distinct
endpoints are ever attempted. -/
theorem rotation_attempts_spec (tokens : List TokenInfo) (rpcUrls : List String)
    (netResp : Nat → Option (List MulticallResult))
    (hne : rpcUrls ≠ []) (hnb : ∀ u ∈ rpcUrls, u ≠ "") :
    ∃ u1 u2 u3 : String,
      rpcUrls[(1 - 1) % rpcUrls.length]? = some u1 ∧
      rpcUrls[(2 - 1) % rpcUrls.length]? = some u2 ∧
      rpcUrls[(3 - 1) % rpcUrls.length]? = some u3 ∧
      ((checkSingleBatchWithRPCRotation tokens rpcUrls netResp).2 =
          [.attemptEv 1 u1] ∨
        (checkSingleBatchWithRPCRotation tokens rpcUrls netResp).2 =
          [.attemptEv 1 u1, .delayEv 500, .attemptEv 2 u2] ∨
        (checkSingleBatchWithRPCRotation tokens rpcUrls netResp).2 =
          [.attemptEv 1 u1, .delayEv 500, .attemptEv 2 u2, .delayEv 500, .attemptEv 3 u3]) ∧
      ((checkSingleBatchWithRPCRotation tokens rpcUrls netResp).2.countP
          (fun e => match e with | .attemptEv _ _ => true | _ => false)) ≤ 3 ∧
      ((checkSingleBatchWithRPCRotation tokens rpcUrls netResp).2.filterMap
          (fun e => match e with | .attemptEv _ rpc => some rpc | _ => none)).dedup.length ≤ 3 ∧
      (∀ k rpc,
        RotEvent.attemptEv k rpc ∈ (checkSingleBatchWithRPCRotation tokens rpcUrls netResp).2 →
        rpcUrls[(k - 1) % rpcUrls.length]? = some rpc) := by
  have hlen : 0 < rpcUrls.length := List.length_pos.mpr hne
  have hm1 : (1 - 1) % rpcUrls.length < rpcUrls.length := Nat.mod_lt _ hlen
  have hm2 : (2 - 1) % rpcUrls.length < rpcUrls.length := Nat.mod_lt _ hlen
  have hm3 : (3 - 1) % rpcUrls.length < rpcUrls.length := Nat.mod_lt _ hlen
  have hb1 : rpcUrls[(1 - 1) % rpcUrls.length] ≠ "" := hnb _ (rpcUrls.getElem_mem hm1)
  have hb2 : rpcUrls[(2 - 1) % rpcUrls.length] ≠ "" := hnb _ (rpcUrls.getElem_mem hm2)
  have hb3 : rpcUrls[(3 - 1) % rpcUrls.length] ≠ "" := hnb _ (rpcUrls.getElem_mem hm3)
  have e1 := rotationLoop_step tokens rpcUrls netResp 3 1 2 _ (List.getElem?_eq_getElem hm1) hb1
  have e2 := rotationLoop_step tokens rpcUrls netResp 3 2 1 _ (List.getElem?_eq_getElem hm2) hb2
  have e3 := rotationLoop_step tokens rpcUrls netResp 3 3 0 _ (List.getElem?_eq_getElem hm3) hb3
  refine ⟨rpcUrls[(1 - 1) % rpcUrls.length], rpcUrls[(2 - 1) % rpcUrls.length],
    rpcUrls[(3 - 1) % rpcUrls.length], List.getElem?_eq_getElem hm1,
    List.getElem?_eq_getElem hm2, List.getElem?_eq_getElem hm3, ?_⟩
  have htrace : (checkSingleBatchWithRPCRotation tokens rpcUrls netResp).2 =
        [.attemptEv 1 (rpcUrls[(1 - 1) % rpcUrls.length])] ∨
      (checkSingleBatchWithRPCRotation tokens rpcUrls netResp).2 =
        [.attemptEv 1 (rpcUrls[(1 - 1) % rpcUrls.length]), .delayEv 500,
         .attemptEv 2 (rpcUrls[(2 - 1) % rpcUrls.length])] ∨
      (checkSingleBatchWithRPCRotation tokens rpcUrls netResp).2 =
        [.attemptEv 1 (rpcUrls[(1 - 1) % rpcUrls.length]), .delayEv 500,
         .attemptEv 2 (rpcUrls[(2 - 1) % rpcUrls.length]), .delayEv 500,
         .attemptEv 3 (rpcUrls[(3 - 1) % rpcUrls.length])] := by
    unfold checkSingleBatchWithRPCRotation
    cases hn1 : netResp 1 with
    | some res1 =>
      left
      rw [e1, hn1]
    | none =>
      cases hn2 : netResp 2 with
      | some res2 =>
        right; left
        rw [e1, hn1]
        simp only []
        rw [e2, hn2]
        simp
      | none =>
        right; right
        rw [e1, hn1]
        simp only []
        rw [e2, hn2]
        cases hn3 : netResp 3 with
        | some res3 =>
          rw [e3, hn3]
          simp
        | none =>
          rw [e3, hn3]
          simp
          rfl
  rcases htrace with h | h | h <;> rw [h] <;>
    refine ⟨by simp, by simp [List.countP_cons], ?_, ?_⟩
  · have hsub := List.Sublist.length_le
      (List.dedup_sublist [rpcUrls[(1 - 1) % rpcUrls.length]])
    exact Nat.le_trans hsub (by simp)
  · intro k rpc hmem
    simp at hmem
    obtain ⟨rfl, rfl⟩ := hmem
    exact List.getElem?_eq_getElem hm1
  · have hsub := List.Sublist.length_le
      (List.dedup_sublist [rpcUrls[(1 - 1) % rpcUrls.length],
        rpcUrls[(2 - 1) % rpcUrls.length]])
    simpa using Nat.le_trans hsub (by simp)
  · intro k rpc hmem
    simp at hmem
    rcases hmem with ⟨rfl, rfl⟩ | ⟨rfl, rfl⟩
    · exact List.getElem?_eq_getElem hm1
    · exact List.getElem?_eq_getElem hm2
  · have hsub := List.Sublist.length_le
      (List.dedup_sublist [rpcUrls[(1 - 1) % rpcUrls.length],
        rpcUrls[(2 - 1) % rpcUrls.length], rpcUrls[(3 - 1) % rpcUrls.length]])
    simpa using Nat.le_trans hsub (by simp)
  · intro k rpc hmem
    simp at hmem
    rcases hmem with ⟨rfl, rfl⟩ | ⟨rfl, rfl⟩ | ⟨rfl, rfl⟩
    · exact List.getElem?_eq_getElem hm1
    · exact List.getElem?_eq_getElem hm2
    · exact List.getElem?_eq_getElem hm3

/-- Witness for `rotation_attempts_spec`: an empty batch against the
two-endpoint list `["https://a", "https://b"]` with every attempt
failing. -/
theorem rotation_attempts_spec_witness :
    ∃ u1 u2 u3 : String,
      (["https://a", "https://b"] : List String)[(1 - 1) %
          (["https://a", "https://b"] : List String).length]? = some u1 ∧
      (["https://a", "https://b"] : List String)[(2 - 1) %
          (["https://a", "https://b"] : List String).length]? = some u2 ∧
      (["https://a", "https://b"] : List String)[(3 - 1) %
          (["https://a", "https://b"] : List String).length]? = some u3 ∧
      ((checkSingleBatchWithRPCRotation [] ["https://a", "https://b"] (fun _ => none)).2 =
          [.attemptEv 1 u1] ∨
        (checkSingleBatchWithRPCRotation [] ["https://a", "https://b"] (fun _ => none)).2 =
          [.attemptEv 1 u1, .delayEv 500, .attemptEv 2 u2] ∨
        (checkSingleBatchWithRPCRotation [] ["https://a", "https://b"] (fun _ => none)).2 =
          [.attemptEv 1 u1, .delayEv 500, .attemptEv 2 u2, .delayEv 500, .attemptEv 3 u3]) ∧
      ((checkSingleBatchWithRPCRotation [] ["https://a", "https://b"] (fun _ => none)).2.countP
          (fun e => match e with | .attemptEv _ _ => true | _ => false)) ≤ 3 ∧
      ((checkSingleBatchWithRPCRotation [] ["https://a", "https://b"] (fun _ => none)).2.filterMap
          (fun e => match e with | .attemptEv _ rpc => some rpc | _ => none)).dedup.length ≤ 3 ∧
      (∀ k rpc,
        RotEvent.attemptEv k rpc ∈
          (checkSingleBatchWithRPCRotation [] ["https://a", "https://b"] (fun _ => none)).2 →
        (["https://a", "https://b"] : List String)[(k - 1) %
          (["https://a", "https://b"] : List String).length]? = some rpc) :=
  rotation_attempts_spec [] ["https://a", "https://b"] (fun _ => none)
    (by simp) (by simp)

lemma checkSingleNetwork_ok_chainId (walletAddress : String) (chainId : Nat)
    (catalog : Except Unit (List TokenInfo)) (native : Except Unit NativeBalanceResult)
    (netResp : Nat → Nat → Option (List MulticallResult)) (timestamp : Nat)
    (networkResult : NetworkBalanceResult)
    (h : checkSingleNetwork walletAddress chainId catalog native netResp timestamp =
      .ok networkResult) : networkResult.chainId = chainId := by
  unfold checkSingleNetwork at h
  split at h
  · exact absurd h (by simp)
  · split at h
    · exact absurd h (by simp)
    · split at h
      · exact absurd h (by simp)
      · injection h with h
        subst h
        rfl

/-- Claim C8: the multi-network query is a total function (it never
throws); every queried chain id appears, in order, in the per-wallet
result, and a network whose single-network query failed for any reason is
reported as the zero-valued placeholder: native balance 0 formatted
`"0"`, no token balances, total USD 0. -/
theorem multi_network_query_total (walletAddress : String) (chainIds : List Nat)
    (catalog : Nat → Except Unit (List TokenInfo))
    (native : Nat → Except Unit NativeBalanceResult)
    (netResp : Nat → Nat → Nat → Option (List MulticallResult))
    (timestamp : Nat) :
    ((checkAllNetworks walletAddress chainIds catalog native netResp timestamp).networks.map
        fun network => network.chainId) = chainIds ∧
    (∀ i : Nat, ∀ hi : i < chainIds.length, ∀ e,
      checkSingleNetwork walletAddress (chainIds.get ⟨i, hi⟩)
          (catalog (chainIds.get ⟨i, hi⟩)) (native (chainIds.get ⟨i, hi⟩))
          (netResp (chainIds.get ⟨i, hi⟩)) timestamp = .error e →
      (checkAllNetworks walletAddress chainIds catalog native netResp
          timestamp).networks[i]? =
        some (placeholderNetworkResult walletAddress (chainIds.get ⟨i, hi⟩) timestamp)) ∧
    (∀ chainId,
      (placeholderNetworkResult walletAddress chainId timestamp).nativeBalance.balance = 0 ∧
      (placeholderNetworkResult walletAddress chainId
        timestamp).nativeBalance.balanceFormatted = "0" ∧
      (placeholderNetworkResult walletAddress chainId timestamp).tokenBalances = [] ∧
      (placeholderNetworkResult walletAddress chainId timestamp).totalUsdValue = 0) := by
  refine ⟨?_, ?_, fun chainId => ⟨rfl, rfl, rfl, rfl⟩⟩
  · simp only [checkAllNetworks, List.map_map]
    have : ∀ cid : Nat,
        ((fun network => network.chainId) ∘ fun chainId =>
          match checkSingleNetwork walletAddress chainId (catalog chainId)
              (native chainId) (netResp chainId) timestamp with
          | .ok networkResult => networkResult
          | .error _ => placeholderNetworkResult walletAddress chainId timestamp) cid =
        cid := by
      intro cid
      simp only [Function.comp]
      cases hres : checkSingleNetwork walletAddress cid (catalog cid) (native cid)
          (netResp cid) timestamp with
      | ok networkResult =>
        exact checkSingleNetwork_ok_chainId _ _ _ _ _ _ _ hres
      | error e => rfl
    calc chainIds.map _ = chainIds.map id := List.map_congr_left fun cid _ => this cid
      _ = chainIds := List.map_id chainIds
  · intro i hi e herr
    simp only [checkAllNetworks, List.getElem?_map]
    rw [List.getElem?_eq_getElem hi]
    simp only [Option.map_some']
    rw [show chainIds[i] = chainIds.get ⟨i, hi⟩ from rfl, herr]

/-- Witness for `multi_network_query_total`: wallet `"w"` against chain
ids `[1, 2]` where every native-balance fetch fails; chain id 2 is not
registered, so its entry is the zero placeholder. -/
theorem multi_network_query_total_witness :
    ((checkAllNetworks "w" [1, 2] (fun _ => .ok []) (fun _ => .error ())
        (fun _ _ _ => none) 0).networks.map fun network => network.chainId) = [1, 2] ∧
    (checkAllNetworks "w" [1, 2] (fun _ => .ok []) (fun _ => .error ())
        (fun _ _ _ => none) 0).networks[1]? = some (placeholderNetworkResult "w" 2 0) := by
  refine ⟨(multi_network_query_total "w" [1, 2] (fun _ => .ok []) (fun _ => .error ())
      (fun _ _ _ => none) 0).1, ?_⟩
  exact (multi_network_query_total "w" [1, 2] (fun _ => .ok []) (fun _ => .error ())
      (fun _ _ _ => none) 0).2.1 1 (by decide) .unsupportedNetwork (by rfl)

/-- Counterexample to claim C9: on chain 1 (registered), with the token
catalog fetch failing and a native balance of 5 wei available, the
single-network query does NOT proceed with an empty token set — it fails
with the propagated catalog error, so no result (and in particular no
native balance) is reported for that network by `checkSingleNetwork`.
`TokenListManager.getTokensForChain` has no `catch` around
`fetchFromAPI`, and `BalanceChecker.checkSingleNetwork` fetches tokens
before the native balance. -/
theorem catalog_failure_aborts_network :
    checkSingleNetwork "0xWallet" 1 (.error ())
        (.ok { balance := 5, balanceFormatted := "0.000000000000000005",
               symbol := "ETH", usdValue := 0 })
        (fun _ _ => none) 0 = .error .catalogUnavailable := by
  rfl

/-- Amended claim C9: when the external token catalog fetch fails for a
registered network, the single-network query itself fails with the
propagated catalog error (the native balance is not reported at that
level); one level up, `checkAllNetworks` absorbs the failure and reports
the zero-valued placeholder for that network. -/
theorem catalog_failure_amended (walletAddress : String) (chainId : Nat)
    (config : NetworkConfig) (native : Except Unit NativeBalanceResult)
    (netResp : Nat → Nat → Option (List MulticallResult)) (timestamp : Nat)
    (hreg : getNetworkConfig chainId = some config) :
    checkSingleNetwork walletAddress chainId (.error ()) native netResp timestamp =
      .error .catalogUnavailable ∧
    (checkAllNetworks walletAddress [chainId] (fun _ => .error ()) (fun _ => native)
        (fun _ => netResp) timestamp).networks =
      [placeholderNetworkResult walletAddress chainId timestamp] := by
  have h1 : checkSingleNetwork walletAddress chainId (.error ()) native netResp
      timestamp = .error .catalogUnavailable := by
    unfold checkSingleNetwork
    rw [hreg]
  refine ⟨h1, ?_⟩
  simp only [checkAllNetworks, List.map_cons, List.map_nil, h1]

/-- Witness for `catalog_failure_amended` at chain id 1. -/
theorem catalog_failure_amended_witness :
    checkSingleNetwork "0xW" 1 (.error ()) (.error ()) (fun _ _ => none) 0 =
      .error .catalogUnavailable ∧
    (checkAllNetworks "0xW" [1] (fun _ => .error ()) (fun _ => .error ())
        (fun _ => fun _ _ => none) 0).networks =
      [placeholderNetworkResult "0xW" 1 0] := by
  obtain ⟨config, hconfig⟩ : ∃ c, getNetworkConfig 1 = some c := ⟨_, rfl⟩
  exact catalog_failure_amended "0xW" 1 config (.error ()) (fun _ _ => none) 0 hconfig
